import Mathlib

/-!
Verification of the Day-after-trading earnings-reversal pipeline.

This file is a shallow embedding of the algorithmic core of the repository:

* `src/src/ingestion/trading_calendar.py` — the trading-calendar adapter and
  the session-aware T0/T1/T2 resolver (`TradingCalendar.get_t0_t1_t2`);
* `src/src/pipeline/phase1_smoke_test.py` — the event-window builder
  (`_step4_build_event_windows`), the feature engine (`_step5_compute_features`),
  the signal classifier (`_step6_generate_signals`) and the trade simulator
  (`_step7_simulate_trades`).

Dates are modelled as integers (a day count), prices as rationals, pandas
missing values (NaN / None) as `Option`.  The external `exchange_calendars`
oracle is modelled as a record of the three query functions the adapter
consumes (`is_trading_day`, `next`/`previous` session); its in-range good
behaviour is an explicit hypothesis (`Calendar.Sound`) where a claim needs it.
-/

/-- Earnings announcement timing, from `EarningsSession` in
`trading_calendar.py`. -/
inductive EarningsSession
  | BMO
  | AMC
  | UNKNOWN
deriving DecidableEq, Repr

/-- The `.value` strings of the Python enum
(`"bmo"`, `"amc"`, `"unknown"`). -/
def EarningsSession.value : EarningsSession → String
  | EarningsSession.BMO => "bmo"
  | EarningsSession.AMC => "amc"
  | EarningsSession.UNKNOWN => "unknown"

/-- The external trading-day oracle consumed by `TradingCalendar`:
`is_trading_day`, the next trading session strictly after a date, and the
previous trading session strictly before a date (offset 1 is the only offset
the pipeline uses). -/
structure Calendar where
  isTradingDay : Int → Bool
  nextTradingDay : Int → Int
  prevTradingDay : Int → Int

/-- In-range good behaviour of the calendar oracle: next/previous sessions
are strictly later/earlier and land on trading days.  This is the
precondition "calendar queries inside the oracle's covered range". -/
def Calendar.Sound (c : Calendar) : Prop :=
  (∀ d, d < c.nextTradingDay d) ∧
  (∀ d, c.isTradingDay (c.nextTradingDay d) = true) ∧
  (∀ d, c.prevTradingDay d < d) ∧
  (∀ d, c.isTradingDay (c.prevTradingDay d) = true)

/-- The dict returned by `TradingCalendar.get_t0_t1_t2`: the three anchor
dates plus the original and effective session strings. -/
structure TDates where
  t0 : Int
  t1 : Int
  t2 : Int
  session : String
  effective_session : String
deriving DecidableEq, Repr

/-- `TradingCalendar.get_t0_t1_t2` from `trading_calendar.py` (lines 135-206):
UNKNOWN is treated as AMC; AMC anchors T0 at the earnings date (or the
previous trading day when it is not a trading day) with T1/T2 the next two
trading days; BMO anchors T1 at the earnings date (or the next trading day)
with T0 the previous trading day before the earnings date. -/
def Calendar.get_t0_t1_t2 (c : Calendar) (earnings_date : Int)
    (session : EarningsSession) : TDates :=
  -- Treat UNKNOWN as AMC (most conservative, most common)
  let effective_session :=
    if session = EarningsSession.UNKNOWN then EarningsSession.AMC else session
  if effective_session = EarningsSession.AMC then
    let t0 :=
      if c.isTradingDay earnings_date then earnings_date
      else c.prevTradingDay earnings_date
    let t1 := c.nextTradingDay t0
    let t2 := c.nextTradingDay t1
    { t0 := t0, t1 := t1, t2 := t2,
      session := session.value, effective_session := effective_session.value }
  else  -- BMO
    if c.isTradingDay earnings_date then
      let t1 := earnings_date
      let t0 := c.prevTradingDay earnings_date
      let t2 := c.nextTradingDay t1
      { t0 := t0, t1 := t1, t2 := t2,
        session := session.value, effective_session := effective_session.value }
    else
      let t1 := c.nextTradingDay earnings_date
      let t0 := c.prevTradingDay earnings_date
      let t2 := c.nextTradingDay t1
      { t0 := t0, t1 := t1, t2 := t2,
        session := session.value, effective_session := effective_session.value }

/-- A deterministic weekday-only calendar (Monday = day 0 mod 7, trading
days Monday-Friday), used to instantiate the abstract oracle in witnesses. -/
def weekdayCal : Calendar where
  isTradingDay := fun d => decide (d % 7 < 5)
  nextTradingDay := fun d =>
    if d % 7 = 4 then d + 3 else if d % 7 = 5 then d + 2 else d + 1
  prevTradingDay := fun d =>
    if d % 7 = 0 then d - 3 else if d % 7 = 6 then d - 2 else d - 1

theorem weekdayCal_sound : weekdayCal.Sound := by
  refine ⟨?_, ?_, ?_, ?_⟩ <;> intro d <;>
    simp only [weekdayCal, decide_eq_true_eq] <;> split_ifs <;> omega

/-- One earnings announcement (`EarningsEvent` in the spec; built in step 2
of the pipeline from the ingestion rows). -/
structure EarningsEvent where
  symbol : String
  date : Int
  session : EarningsSession
deriving DecidableEq, Repr

/-- One daily OHLCV bar, as looked up by `(symbol, date)` in
`_step4_build_event_windows`. -/
structure OHLCV where
  open_ : ℚ
  high : ℚ
  low : ℚ
  close : ℚ
  volume : ℚ
deriving DecidableEq, Repr

/-- The window dict built per event in `_step4_build_event_windows`
(lines 251-277): anchor dates, session strings, and each anchor's OHLCV
fields, each `None` when the bar is missing from the lookup. -/
structure EventWindow where
  symbol : String
  earnings_date : Int
  session : String
  effective_session : String
  t0_date : Int
  t1_date : Int
  t2_date : Int
  t0_open : Option ℚ
  t0_high : Option ℚ
  t0_low : Option ℚ
  t0_close : Option ℚ
  t0_volume : Option ℚ
  t1_open : Option ℚ
  t1_high : Option ℚ
  t1_low : Option ℚ
  t1_close : Option ℚ
  t1_volume : Option ℚ
  t2_open : Option ℚ
  t2_high : Option ℚ
  t2_low : Option ℚ
  t2_close : Option ℚ
  t2_volume : Option ℚ
deriving DecidableEq, Repr

/-- The per-event body of `_step4_build_event_windows`: resolve T0/T1/T2,
look each anchor up in the OHLCV table, and set each OHLCV field to the
bar's field when present and to `None` otherwise (`t0_data["open"] if
t0_data is not None else None`, etc.). -/
def buildWindow (c : Calendar) (lookup : String → Int → Option OHLCV)
    (e : EarningsEvent) : EventWindow :=
  let t_dates := c.get_t0_t1_t2 e.date e.session
  let t0_data := lookup e.symbol t_dates.t0
  let t1_data := lookup e.symbol t_dates.t1
  let t2_data := lookup e.symbol t_dates.t2
  { symbol := e.symbol
    earnings_date := e.date
    session := t_dates.session
    effective_session := t_dates.effective_session
    t0_date := t_dates.t0
    t1_date := t_dates.t1
    t2_date := t_dates.t2
    t0_open := t0_data.map OHLCV.open_
    t0_high := t0_data.map OHLCV.high
    t0_low := t0_data.map OHLCV.low
    t0_close := t0_data.map OHLCV.close
    t0_volume := t0_data.map OHLCV.volume
    t1_open := t1_data.map OHLCV.open_
    t1_high := t1_data.map OHLCV.high
    t1_low := t1_data.map OHLCV.low
    t1_close := t1_data.map OHLCV.close
    t1_volume := t1_data.map OHLCV.volume
    t2_open := t2_data.map OHLCV.open_
    t2_high := t2_data.map OHLCV.high
    t2_low := t2_data.map OHLCV.low
    t2_close := t2_data.map OHLCV.close
    t2_volume := t2_data.map OHLCV.volume }

/-- `_step4_build_event_windows` over the whole batch (lines 228-299): one
window per event, plus the batch-level `date_order_ok` boolean
`(t0_date <= t1_date) & (t1_date < t2_date) for all windows` (the `dropna`
on the date columns in the source is vacuous, since the resolver always
returns all three dates).  The boolean is only printed by the source; it is
returned here so its value can be reasoned about. -/
def step4 (c : Calendar) (lookup : String → Int → Option OHLCV)
    (events : List EarningsEvent) : List EventWindow × Bool :=
  let windows := events.map (buildWindow c lookup)
  let date_order_ok := windows.all fun w =>
    decide (w.t0_date ≤ w.t1_date) && decide (w.t1_date < w.t2_date)
  (windows, date_order_ok)

/-- Pandas ratio feature `num / den - 1` with NaN propagation: absent when
either input price is absent.  (A zero denominator, which pandas would turn
into an infinity, does not occur for positive prices and is not modelled.) -/
def ratioMinusOne : Option ℚ → Option ℚ → Option ℚ
  | some num, some den => some (num / den - 1)
  | _, _ => none

/-- The columns of one row after `_step5_compute_features`: the window
fields the signal step reads, widened with `R1 = t1_close / t0_close - 1`,
`Gap2 = t2_open / t1_close - 1` and their absolute values. -/
structure FeatureRow where
  symbol : String
  earnings_date : Int
  session : String
  effective_session : String
  t0_date : Int
  t1_date : Int
  t2_date : Int
  t0_close : Option ℚ
  t1_close : Option ℚ
  t2_open : Option ℚ
  t2_high : Option ℚ
  t2_low : Option ℚ
  t2_close : Option ℚ
  R1 : Option ℚ
  Gap2 : Option ℚ
  abs_R1 : Option ℚ
  abs_Gap2 : Option ℚ
deriving DecidableEq, Repr

/-- `_step5_compute_features` on one window (lines 301-318). -/
def step5Row (w : EventWindow) : FeatureRow :=
  { symbol := w.symbol
    earnings_date := w.earnings_date
    session := w.session
    effective_session := w.effective_session
    t0_date := w.t0_date
    t1_date := w.t1_date
    t2_date := w.t2_date
    t0_close := w.t0_close
    t1_close := w.t1_close
    t2_open := w.t2_open
    t2_high := w.t2_high
    t2_low := w.t2_low
    t2_close := w.t2_close
    R1 := ratioMinusOne w.t1_close w.t0_close
    Gap2 := ratioMinusOne w.t2_open w.t1_close
    abs_R1 := (ratioMinusOne w.t1_close w.t0_close).map fun x => |x|
    abs_Gap2 := (ratioMinusOne w.t2_open w.t1_close).map fun x => |x| }

/-- The seven signal classifications of `_step6_generate_signals`. -/
inductive Signal
  | LONG
  | SHORT
  | NO_TRADE_SMALL_R1
  | NO_TRADE_SMALL_GAP
  | NO_TRADE_SAME_DIRECTION
  | EXCLUDED_UNKNOWN_SESSION
  | EXCLUDED_NO_DATA
deriving DecidableEq, Repr

/-- Pandas float comparison `x < t` where `x` may be NaN: NaN comparisons
are False. -/
def ltOpt : Option ℚ → ℚ → Bool
  | some x, t => decide (x < t)
  | none, _ => false

/-- Pandas float comparison `x > t` where `x` may be NaN: NaN comparisons
are False. -/
def gtOpt : Option ℚ → ℚ → Bool
  | some x, t => decide (t < x)
  | none, _ => false

/-- The classification chain of `_step6_generate_signals` (lines 365-396),
first match wins.  Note the second branch is the source's
`not session_known and row.get("session") == "unknown"` with
`session_known = row.get("effective_session") != "amc_assumed"` — i.e. it
requires `effective_session = "amc_assumed"`, a string the calendar
resolver never produces (it produces `"amc"` or `"bmo"`). -/
def classify (r1_threshold gap2_min : ℚ) (row : FeatureRow) : Signal :=
  if row.R1.isNone || row.Gap2.isNone then
    Signal.EXCLUDED_NO_DATA
  else if row.effective_session = "amc_assumed" ∧ row.session = "unknown" then
    Signal.EXCLUDED_UNKNOWN_SESSION
  else if ltOpt row.abs_R1 r1_threshold then
    Signal.NO_TRADE_SMALL_R1
  else if ltOpt row.abs_Gap2 gap2_min then
    Signal.NO_TRADE_SMALL_GAP
  else if gtOpt row.R1 r1_threshold && ltOpt row.Gap2 0 then
    Signal.LONG
  else if ltOpt row.R1 (-r1_threshold) && gtOpt row.Gap2 0 then
    Signal.SHORT
  else
    Signal.NO_TRADE_SAME_DIRECTION

/-- The `exclusion_reason` recorded alongside each classification (the
source interpolates the offending magnitudes into the threshold reasons;
the numeric formatting is elided here). -/
def exclusionReasonFor : Signal → Option String
  | Signal.EXCLUDED_NO_DATA => some ("missing R1 or Gap2")
  | Signal.EXCLUDED_UNKNOWN_SESSION => some ("unknown BMO/AMC session")
  | Signal.NO_TRADE_SMALL_R1 => some ("R1 magnitude too small")
  | Signal.NO_TRADE_SMALL_GAP => some ("Gap2 magnitude too small")
  | Signal.NO_TRADE_SAME_DIRECTION => some ("Gap2 direction matches R1 direction")
  | _ => none

/-- One row of the signals table built by `_step6_generate_signals`
(lines 416-437). -/
structure SignalRow where
  symbol : String
  earnings_date : Int
  session : String
  effective_session : String
  t0_date : Int
  t1_date : Int
  t2_date : Int
  t0_close : Option ℚ
  t1_close : Option ℚ
  t2_open : Option ℚ
  R1 : Option ℚ
  Gap2 : Option ℚ
  signal : Signal
  exclusion_reason : Option String
  target_price : Option ℚ
  entry_price : Option ℚ
  t2_high : Option ℚ
  t2_low : Option ℚ
  t2_close : Option ℚ
deriving DecidableEq, Repr

/-- `_step6_generate_signals` on one feature row: classify, and always
record `target_price = t1_close` and `entry_price = t2_open`. -/
def step6Row (r1_threshold gap2_min : ℚ) (fr : FeatureRow) : SignalRow :=
  let signal := classify r1_threshold gap2_min fr
  { symbol := fr.symbol
    earnings_date := fr.earnings_date
    session := fr.session
    effective_session := fr.effective_session
    t0_date := fr.t0_date
    t1_date := fr.t1_date
    t2_date := fr.t2_date
    t0_close := fr.t0_close
    t1_close := fr.t1_close
    t2_open := fr.t2_open
    R1 := fr.R1
    Gap2 := fr.Gap2
    signal := signal
    exclusion_reason := exclusionReasonFor signal
    target_price := fr.t1_close
    entry_price := fr.t2_open
    t2_high := fr.t2_high
    t2_low := fr.t2_low
    t2_close := fr.t2_close }

/-- One execution-cost configuration (the source calls these cost
"scenarios": `{spread_bps_each_side, slippage_bps_each_side,
commission_bps_each_side}` from `execution_costs.yaml`). -/
structure CostConfig where
  spread_bps_each_side : ℚ
  slippage_bps_each_side : ℚ
  commission_bps_each_side : ℚ
deriving DecidableEq, Repr

/-- `total_cost_bps` in `_step7_simulate_trades` (lines 490-495): the sum of
the three per-side components times 2 (entry + exit, round-trip). -/
def totalCostBps (cc : CostConfig) : ℚ :=
  (cc.spread_bps_each_side + cc.slippage_bps_each_side +
    cc.commission_bps_each_side) * 2

/-- One entry of the simulator's `validation_errors` list, modelled as a
structured record of the source's message content: the offending trade's
symbol and earnings date, which assertion fired, and the expected and actual
values it interpolates. -/
structure ValidationError where
  symbol : String
  earnings_date : Int
  kind : String
  expected : ℚ
  actual : ℚ
deriving DecidableEq, Repr

/-- One row of the trades table built by `_step7_simulate_trades`
(lines 566-589); the window columns copied verbatim from the signal row are
elided, the computed outcome fields are all present. -/
structure Trade where
  symbol : String
  earnings_date : Int
  signal : Signal
  entry_price : ℚ
  target_price : ℚ
  exit_price : ℚ
  hit_target : Bool
  gross_return : ℚ
  cost_bps : ℚ
  net_return : ℚ
deriving DecidableEq, Repr

/-- The per-signal body of `_step7_simulate_trades` (lines 503-589): skip
the signal when entry or target is missing; check `target` against
`t1_close` within the 1e-4 tolerance; detect a hit against the T2 intraday
extreme (False when the extreme is missing); exit at `target` on a hit,
else at `t2_close` (falling back to `entry` when `t2_close` is missing);
compute the gross return, re-check it on hits against the target-based
formula, and subtract the round-trip cost once. -/
def simulateOne (total_cost_bps : ℚ) (sig : SignalRow) :
    Option Trade × List ValidationError :=
  match sig.entry_price, sig.target_price with
  | some entry, some target =>
    -- ASSERTION 1: target_price == t1_close.  A missing t1_close makes the
    -- source's float comparison `abs(target - t1_close) > 0.0001` False
    -- (NaN), hence no error is recorded in that case.
    let errs1 : List ValidationError :=
      match sig.t1_close with
      | some t1c =>
        if 1 / 10000 < |target - t1c| then
          [{ symbol := sig.symbol, earnings_date := sig.earnings_date,
             kind := "target_price != t1_close",
             expected := t1c, actual := target }]
        else []
      | none => []
    if sig.signal = Signal.LONG then
      let hit : Bool :=
        match sig.t2_high with
        | some h2 => decide (target ≤ h2)
        | none => false
      let exit_price : ℚ :=
        if hit then target
        else
          match sig.t2_close with
          | some c2 => c2
          | none => entry
      let gross_return := (exit_price - entry) / entry
      -- ASSERTION 2: for a LONG hit, gross_return == (target - entry) / entry
      let errs2 : List ValidationError :=
        if hit then
          let expected_return := (target - entry) / entry
          if 1 / 10000 < |gross_return - expected_return| then
            [{ symbol := sig.symbol, earnings_date := sig.earnings_date,
               kind := "LONG hit gross_return mismatch",
               expected := expected_return, actual := gross_return }]
          else []
        else []
      let net_return := gross_return - total_cost_bps / 10000
      (some { symbol := sig.symbol, earnings_date := sig.earnings_date,
              signal := sig.signal, entry_price := entry,
              target_price := target, exit_price := exit_price,
              hit_target := hit, gross_return := gross_return,
              cost_bps := total_cost_bps, net_return := net_return },
       errs1 ++ errs2)
    else  -- SHORT
      let hit : Bool :=
        match sig.t2_low with
        | some l2 => decide (l2 ≤ target)
        | none => false
      let exit_price : ℚ :=
        if hit then target
        else
          match sig.t2_close with
          | some c2 => c2
          | none => entry
      let gross_return := (entry - exit_price) / entry
      -- ASSERTION 3: for a SHORT hit, gross_return == (entry - target) / entry
      let errs2 : List ValidationError :=
        if hit then
          let expected_return := (entry - target) / entry
          if 1 / 10000 < |gross_return - expected_return| then
            [{ symbol := sig.symbol, earnings_date := sig.earnings_date,
               kind := "SHORT hit gross_return mismatch",
               expected := expected_return, actual := gross_return }]
          else []
        else []
      let net_return := gross_return - total_cost_bps / 10000
      (some { symbol := sig.symbol, earnings_date := sig.earnings_date,
              signal := sig.signal, entry_price := entry,
              target_price := target, exit_price := exit_price,
              hit_target := hit, gross_return := gross_return,
              cost_bps := total_cost_bps, net_return := net_return },
       errs1 ++ errs2)
  | _, _ => (none, [])

/-- `_step7_simulate_trades` over the signals table: filter to the
tradeable LONG/SHORT rows, simulate each, and collect the trade rows and
the validation errors.  The source reports the errors as a printed WARNING
and a stats counter and then proceeds to build the trades table. -/
def step7 (total_cost_bps : ℚ) (sigs : List SignalRow) :
    List Trade × List ValidationError :=
  let tradeable := sigs.filter fun s =>
    decide (s.signal = Signal.LONG) || decide (s.signal = Signal.SHORT)
  (tradeable.filterMap fun s => (simulateOne total_cost_bps s).1,
   (tradeable.map fun s => (simulateOne total_cost_bps s).2).flatten)

/-- C2: the T0/T1/T2 resolver computes anchors exactly by the specified
branch structure — for effective session AMC (which includes UNKNOWN,
resolved to AMC), t0 is the earnings date if it is a trading day and the
previous trading day otherwise, with t1/t2 the next two trading days; for
BMO on a trading day t1 is the earnings date and t0 the previous trading
day, otherwise t1 is the next and t0 the previous trading day around the
earnings date, with t2 the next trading day after t1; and the returned
record preserves the original session while recording the effective one. -/
theorem get_t0_t1_t2_branch_structure (c : Calendar) (d : Int)
    (s : EarningsSession) :
    (c.get_t0_t1_t2 d s).session = s.value ∧
    (c.get_t0_t1_t2 d s).effective_session =
      (if s = EarningsSession.UNKNOWN then EarningsSession.AMC else s).value ∧
    ((s = EarningsSession.AMC ∨ s = EarningsSession.UNKNOWN) →
      (c.get_t0_t1_t2 d s).t0 =
        (if c.isTradingDay d then d else c.prevTradingDay d) ∧
      (c.get_t0_t1_t2 d s).t1 = c.nextTradingDay (c.get_t0_t1_t2 d s).t0 ∧
      (c.get_t0_t1_t2 d s).t2 = c.nextTradingDay (c.get_t0_t1_t2 d s).t1) ∧
    (s = EarningsSession.BMO →
      (c.isTradingDay d = true →
        (c.get_t0_t1_t2 d s).t1 = d ∧
        (c.get_t0_t1_t2 d s).t0 = c.prevTradingDay d) ∧
      (c.isTradingDay d = false →
        (c.get_t0_t1_t2 d s).t1 = c.nextTradingDay d ∧
        (c.get_t0_t1_t2 d s).t0 = c.prevTradingDay d) ∧
      (c.get_t0_t1_t2 d s).t2 = c.nextTradingDay (c.get_t0_t1_t2 d s).t1) := by
  cases s <;>
    by_cases htd : c.isTradingDay d = true <;>
    simp [Calendar.get_t0_t1_t2, EarningsSession.value, htd]

/-- C2 witness: the branch structure instantiated at the weekday calendar,
a Monday earnings date and a BMO session. -/
theorem get_t0_t1_t2_branch_structure_witness :
    (weekdayCal.get_t0_t1_t2 0 EarningsSession.BMO).session =
      EarningsSession.BMO.value ∧
    (weekdayCal.get_t0_t1_t2 0 EarningsSession.BMO).effective_session =
      (if EarningsSession.BMO = EarningsSession.UNKNOWN then EarningsSession.AMC
        else EarningsSession.BMO).value ∧
    ((EarningsSession.BMO = EarningsSession.AMC ∨
        EarningsSession.BMO = EarningsSession.UNKNOWN) →
      (weekdayCal.get_t0_t1_t2 0 EarningsSession.BMO).t0 =
        (if weekdayCal.isTradingDay 0 then 0 else weekdayCal.prevTradingDay 0) ∧
      (weekdayCal.get_t0_t1_t2 0 EarningsSession.BMO).t1 =
        weekdayCal.nextTradingDay (weekdayCal.get_t0_t1_t2 0 EarningsSession.BMO).t0 ∧
      (weekdayCal.get_t0_t1_t2 0 EarningsSession.BMO).t2 =
        weekdayCal.nextTradingDay (weekdayCal.get_t0_t1_t2 0 EarningsSession.BMO).t1) ∧
    (EarningsSession.BMO = EarningsSession.BMO →
      (weekdayCal.isTradingDay 0 = true →
        (weekdayCal.get_t0_t1_t2 0 EarningsSession.BMO).t1 = 0 ∧
        (weekdayCal.get_t0_t1_t2 0 EarningsSession.BMO).t0 =
          weekdayCal.prevTradingDay 0) ∧
      (weekdayCal.isTradingDay 0 = false →
        (weekdayCal.get_t0_t1_t2 0 EarningsSession.BMO).t1 =
          weekdayCal.nextTradingDay 0 ∧
        (weekdayCal.get_t0_t1_t2 0 EarningsSession.BMO).t0 =
          weekdayCal.prevTradingDay 0) ∧
      (weekdayCal.get_t0_t1_t2 0 EarningsSession.BMO).t2 =
        weekdayCal.nextTradingDay (weekdayCal.get_t0_t1_t2 0 EarningsSession.BMO).t1) :=
  get_t0_t1_t2_branch_structure weekdayCal 0 EarningsSession.BMO

/-- Explicit form of the resolver for a BMO session, used by the calendar
claims below. -/
theorem get_t0_t1_t2_BMO (c : Calendar) (d : Int) :
    c.get_t0_t1_t2 d EarningsSession.BMO =
      if c.isTradingDay d then
        { t0 := c.prevTradingDay d, t1 := d, t2 := c.nextTradingDay d,
          session := EarningsSession.BMO.value,
          effective_session := EarningsSession.BMO.value }
      else
        { t0 := c.prevTradingDay d, t1 := c.nextTradingDay d,
          t2 := c.nextTradingDay (c.nextTradingDay d),
          session := EarningsSession.BMO.value,
          effective_session := EarningsSession.BMO.value } := by
  by_cases htd : c.isTradingDay d = true <;>
    simp [Calendar.get_t0_t1_t2, htd]

/-- Explicit form of the resolver for an AMC session. -/
theorem get_t0_t1_t2_AMC (c : Calendar) (d : Int) :
    c.get_t0_t1_t2 d EarningsSession.AMC =
      if c.isTradingDay d then
        { t0 := d, t1 := c.nextTradingDay d,
          t2 := c.nextTradingDay (c.nextTradingDay d),
          session := EarningsSession.AMC.value,
          effective_session := EarningsSession.AMC.value }
      else
        { t0 := c.prevTradingDay d,
          t1 := c.nextTradingDay (c.prevTradingDay d),
          t2 := c.nextTradingDay (c.nextTradingDay (c.prevTradingDay d)),
          session := EarningsSession.AMC.value,
          effective_session := EarningsSession.AMC.value } := by
  by_cases htd : c.isTradingDay d = true <;>
    simp [Calendar.get_t0_t1_t2, htd]

/-- Explicit form of the resolver for an UNKNOWN session: the anchors are
those of AMC, the original session string is preserved. -/
theorem get_t0_t1_t2_UNKNOWN (c : Calendar) (d : Int) :
    c.get_t0_t1_t2 d EarningsSession.UNKNOWN =
      if c.isTradingDay d then
        { t0 := d, t1 := c.nextTradingDay d,
          t2 := c.nextTradingDay (c.nextTradingDay d),
          session := EarningsSession.UNKNOWN.value,
          effective_session := EarningsSession.AMC.value }
      else
        { t0 := c.prevTradingDay d,
          t1 := c.nextTradingDay (c.prevTradingDay d),
          t2 := c.nextTradingDay (c.nextTradingDay (c.prevTradingDay d)),
          session := EarningsSession.UNKNOWN.value,
          effective_session := EarningsSession.AMC.value } := by
  by_cases htd : c.isTradingDay d = true <;>
    simp [Calendar.get_t0_t1_t2, htd]

/-- C3: for every earnings date and session, a resolver backed by an
in-range well-behaved calendar oracle returns a window with
t0 ≤ t1 < t2, all three of which are trading days. -/
theorem get_t0_t1_t2_ordered_trading_days (c : Calendar) (hc : c.Sound)
    (d : Int) (s : EarningsSession) :
    (c.get_t0_t1_t2 d s).t0 ≤ (c.get_t0_t1_t2 d s).t1 ∧
    (c.get_t0_t1_t2 d s).t1 < (c.get_t0_t1_t2 d s).t2 ∧
    c.isTradingDay (c.get_t0_t1_t2 d s).t0 = true ∧
    c.isTradingDay (c.get_t0_t1_t2 d s).t1 = true ∧
    c.isTradingDay (c.get_t0_t1_t2 d s).t2 = true := by
  obtain ⟨hngt, hntd, hplt, hptd⟩ := hc
  cases s
  case BMO =>
    rw [get_t0_t1_t2_BMO]
    by_cases htd : c.isTradingDay d = true
    · rw [if_pos htd]
      exact ⟨(hplt d).le, hngt d, hptd d, htd, hntd d⟩
    · rw [if_neg htd]
      exact ⟨((hplt d).trans (hngt d)).le, hngt _, hptd _, hntd _, hntd _⟩
  case AMC =>
    rw [get_t0_t1_t2_AMC]
    by_cases htd : c.isTradingDay d = true
    · rw [if_pos htd]
      exact ⟨(hngt d).le, hngt _, htd, hntd _, hntd _⟩
    · rw [if_neg htd]
      exact ⟨(hngt _).le, hngt _, hptd _, hntd _, hntd _⟩
  case UNKNOWN =>
    rw [get_t0_t1_t2_UNKNOWN]
    by_cases htd : c.isTradingDay d = true
    · rw [if_pos htd]
      exact ⟨(hngt d).le, hngt _, htd, hntd _, hntd _⟩
    · rw [if_neg htd]
      exact ⟨(hngt _).le, hngt _, hptd _, hntd _, hntd _⟩

/-- C3 witness: the ordering and trading-day invariant instantiated at the
weekday calendar, a Monday earnings date and an AMC session. -/
theorem get_t0_t1_t2_ordered_trading_days_witness :
    (weekdayCal.get_t0_t1_t2 0 EarningsSession.AMC).t0 ≤
      (weekdayCal.get_t0_t1_t2 0 EarningsSession.AMC).t1 ∧
    (weekdayCal.get_t0_t1_t2 0 EarningsSession.AMC).t1 <
      (weekdayCal.get_t0_t1_t2 0 EarningsSession.AMC).t2 ∧
    weekdayCal.isTradingDay (weekdayCal.get_t0_t1_t2 0 EarningsSession.AMC).t0 = true ∧
    weekdayCal.isTradingDay (weekdayCal.get_t0_t1_t2 0 EarningsSession.AMC).t1 = true ∧
    weekdayCal.isTradingDay (weekdayCal.get_t0_t1_t2 0 EarningsSession.AMC).t2 = true :=
  get_t0_t1_t2_ordered_trading_days weekdayCal weekdayCal_sound 0
    EarningsSession.AMC

/-- C10: in every branch of the resolver the strict inequality t0 < t1
holds under an in-range well-behaved calendar oracle — T0 and T1 are
distinct trading days, so T0 never coincides with the first-reaction day. -/
theorem get_t0_t1_t2_t0_lt_t1 (c : Calendar) (hc : c.Sound)
    (d : Int) (s : EarningsSession) :
    (c.get_t0_t1_t2 d s).t0 < (c.get_t0_t1_t2 d s).t1 ∧
    c.isTradingDay (c.get_t0_t1_t2 d s).t0 = true ∧
    c.isTradingDay (c.get_t0_t1_t2 d s).t1 = true := by
  obtain ⟨hngt, hntd, hplt, hptd⟩ := hc
  cases s
  case BMO =>
    rw [get_t0_t1_t2_BMO]
    by_cases htd : c.isTradingDay d = true
    · rw [if_pos htd]
      exact ⟨hplt d, hptd d, htd⟩
    · rw [if_neg htd]
      exact ⟨(hplt d).trans (hngt d), hptd _, hntd _⟩
  case AMC =>
    rw [get_t0_t1_t2_AMC]
    by_cases htd : c.isTradingDay d = true
    · rw [if_pos htd]
      exact ⟨hngt d, htd, hntd _⟩
    · rw [if_neg htd]
      exact ⟨hngt _, hptd _, hntd _⟩
  case UNKNOWN =>
    rw [get_t0_t1_t2_UNKNOWN]
    by_cases htd : c.isTradingDay d = true
    · rw [if_pos htd]
      exact ⟨hngt d, htd, hntd _⟩
    · rw [if_neg htd]
      exact ⟨hngt _, hptd _, hntd _⟩

/-- C10 witness: strict t0 < t1 instantiated at the weekday calendar, a
Saturday earnings date and a BMO session. -/
theorem get_t0_t1_t2_t0_lt_t1_witness :
    (weekdayCal.get_t0_t1_t2 5 EarningsSession.BMO).t0 <
      (weekdayCal.get_t0_t1_t2 5 EarningsSession.BMO).t1 ∧
    weekdayCal.isTradingDay (weekdayCal.get_t0_t1_t2 5 EarningsSession.BMO).t0 = true ∧
    weekdayCal.isTradingDay (weekdayCal.get_t0_t1_t2 5 EarningsSession.BMO).t1 = true :=
  get_t0_t1_t2_t0_lt_t1 weekdayCal weekdayCal_sound 5 EarningsSession.BMO

/-- A signal-generation input row with original session "unknown" and the
effective session string "amc" — exactly what the calendar resolver emits
for UNKNOWN events (`EarningsSession.AMC.value`) — with both features
present and reversal-shaped (R1 = +5 percent, Gap2 negative). -/
def unknownSessionRow : FeatureRow :=
  { symbol := "AAPL"
    earnings_date := 100
    session := "unknown"
    effective_session := "amc"
    t0_date := 100
    t1_date := 101
    t2_date := 102
    t0_close := some 100
    t1_close := some 105
    t2_open := some 103
    t2_high := some 106
    t2_low := some 100
    t2_close := some 104
    R1 := some (1 / 20)
    Gap2 := some (-(2 / 105))
    abs_R1 := some (1 / 20)
    abs_Gap2 := some (2 / 105) }

/-- C1: refuted on the code (code bug).  A row whose original session is
"unknown" with R1 and Gap2 both present is NOT classified
EXCLUDED_UNKNOWN_SESSION: the source's guard requires
`effective_session == "amc_assumed"`, a string the calendar resolver never
produces (it emits "amc" for UNKNOWN events), so the rule is unreachable
and the row falls through to the threshold rules — here all the way to
LONG, contradicting the claim, the module docstring and the in-line
comments of `_step6_generate_signals`. -/
theorem unknown_session_row_classified_long :
    unknownSessionRow.session = "unknown" ∧
    unknownSessionRow.R1.isSome = true ∧
    unknownSessionRow.Gap2.isSome = true ∧
    classify (1 / 100) (25 / 10000) unknownSessionRow = Signal.LONG ∧
    classify (1 / 100) (25 / 10000) unknownSessionRow ≠
      Signal.EXCLUDED_UNKNOWN_SESSION := by
  have h : classify (1 / 100) (25 / 10000) unknownSessionRow = Signal.LONG := by
    norm_num [classify, unknownSessionRow, ltOpt, gtOpt, decide_eq_true_eq]
    intro hcontra
    exact absurd hcontra (by decide)
  refine ⟨rfl, rfl, rfl, h, ?_⟩
  rw [h]
  decide

theorem gtOpt_eq_true_iff (o : Option ℚ) (t : ℚ) :
    gtOpt o t = true ↔ ∃ x, o = some x ∧ t < x := by
  cases o <;> simp [gtOpt]

theorem ltOpt_eq_true_iff (o : Option ℚ) (t : ℚ) :
    ltOpt o t = true ↔ ∃ x, o = some x ∧ x < t := by
  cases o <;> simp [ltOpt]

/-- C4: the classifier is a total function into the seven classifications,
evaluated first-match-wins (in particular a missing feature always yields
EXCLUDED_NO_DATA, the first rule); every row classified LONG has
R1 > r1_threshold and Gap2 < 0, every row classified SHORT has
R1 < -r1_threshold and Gap2 > 0, and (for a nonnegative threshold) no row
satisfies the defining conditions of both tradeable classifications. -/
theorem classify_total_and_sound (thr g2min : ℚ) (row : FeatureRow)
    (hthr : 0 ≤ thr) :
    (classify thr g2min row = Signal.EXCLUDED_NO_DATA ∨
     classify thr g2min row = Signal.EXCLUDED_UNKNOWN_SESSION ∨
     classify thr g2min row = Signal.NO_TRADE_SMALL_R1 ∨
     classify thr g2min row = Signal.NO_TRADE_SMALL_GAP ∨
     classify thr g2min row = Signal.LONG ∨
     classify thr g2min row = Signal.SHORT ∨
     classify thr g2min row = Signal.NO_TRADE_SAME_DIRECTION) ∧
    ((row.R1 = none ∨ row.Gap2 = none) →
      classify thr g2min row = Signal.EXCLUDED_NO_DATA) ∧
    (classify thr g2min row = Signal.LONG →
      ∃ r1 g2, row.R1 = some r1 ∧ row.Gap2 = some g2 ∧ thr < r1 ∧ g2 < 0) ∧
    (classify thr g2min row = Signal.SHORT →
      ∃ r1 g2, row.R1 = some r1 ∧ row.Gap2 = some g2 ∧ r1 < -thr ∧ 0 < g2) ∧
    (∀ r1 g2 : ℚ, ¬((thr < r1 ∧ g2 < 0) ∧ (r1 < -thr ∧ 0 < g2))) := by
  refine ⟨?_, ?_, ?_, ?_, ?_⟩
  · cases h : classify thr g2min row <;> simp
  · intro h
    have hb : (row.R1.isNone || row.Gap2.isNone) = true := by
      rcases h with h | h <;> simp [h]
    unfold classify
    rw [if_pos hb]
  · intro h
    unfold classify at h
    split_ifs at h with h1 h2 h3 h4 h5 h6
    rw [Bool.and_eq_true, gtOpt_eq_true_iff, ltOpt_eq_true_iff] at h5
    obtain ⟨⟨r1, hr1, hr1t⟩, g2, hg2, hg2t⟩ := h5
    exact ⟨r1, g2, hr1, hg2, hr1t, hg2t⟩
  · intro h
    unfold classify at h
    split_ifs at h with h1 h2 h3 h4 h5 h6
    rw [Bool.and_eq_true, ltOpt_eq_true_iff, gtOpt_eq_true_iff] at h6
    obtain ⟨⟨r1, hr1, hr1t⟩, g2, hg2, hg2t⟩ := h6
    exact ⟨r1, g2, hr1, hg2, hr1t, hg2t⟩
  · rintro r1 g2 ⟨⟨ha, hb⟩, hc', hd⟩
    linarith

/-- A SHORT-shaped feature row with a known AMC session, used to
instantiate the classifier claims. -/
def shortFeatureRow : FeatureRow :=
  { symbol := "JPM"
    earnings_date := 200
    session := "amc"
    effective_session := "amc"
    t0_date := 200
    t1_date := 201
    t2_date := 202
    t0_close := some 100
    t1_close := some 90
    t2_open := some 92
    t2_high := some 93
    t2_low := some 89
    t2_close := some 91
    R1 := some (-(1 / 10))
    Gap2 := some (1 / 45)
    abs_R1 := some (1 / 10)
    abs_Gap2 := some (1 / 45) }

/-- C4 witness: the classifier totality and soundness statement
instantiated at the reference thresholds and a concrete SHORT row. -/
theorem classify_total_and_sound_witness :
    (classify (1 / 100) (25 / 10000) shortFeatureRow = Signal.EXCLUDED_NO_DATA ∨
     classify (1 / 100) (25 / 10000) shortFeatureRow = Signal.EXCLUDED_UNKNOWN_SESSION ∨
     classify (1 / 100) (25 / 10000) shortFeatureRow = Signal.NO_TRADE_SMALL_R1 ∨
     classify (1 / 100) (25 / 10000) shortFeatureRow = Signal.NO_TRADE_SMALL_GAP ∨
     classify (1 / 100) (25 / 10000) shortFeatureRow = Signal.LONG ∨
     classify (1 / 100) (25 / 10000) shortFeatureRow = Signal.SHORT ∨
     classify (1 / 100) (25 / 10000) shortFeatureRow = Signal.NO_TRADE_SAME_DIRECTION) ∧
    ((shortFeatureRow.R1 = none ∨ shortFeatureRow.Gap2 = none) →
      classify (1 / 100) (25 / 10000) shortFeatureRow = Signal.EXCLUDED_NO_DATA) ∧
    (classify (1 / 100) (25 / 10000) shortFeatureRow = Signal.LONG →
      ∃ r1 g2, shortFeatureRow.R1 = some r1 ∧ shortFeatureRow.Gap2 = some g2 ∧
        1 / 100 < r1 ∧ g2 < 0) ∧
    (classify (1 / 100) (25 / 10000) shortFeatureRow = Signal.SHORT →
      ∃ r1 g2, shortFeatureRow.R1 = some r1 ∧ shortFeatureRow.Gap2 = some g2 ∧
        r1 < -(1 / 100) ∧ 0 < g2) ∧
    (∀ r1 g2 : ℚ, ¬((1 / 100 < r1 ∧ g2 < 0) ∧ (r1 < -(1 / 100) ∧ 0 < g2))) :=
  classify_total_and_sound (1 / 100) (25 / 10000) shortFeatureRow (by norm_num)

theorem ratioMinusOne_none_right (a : Option ℚ) : ratioMinusOne a none = none := by
  cases a <;> rfl

theorem ratioMinusOne_none_left (b : Option ℚ) : ratioMinusOne none b = none := by
  cases b <;> rfl

/-- The first classifier rule: a missing feature yields EXCLUDED_NO_DATA. -/
theorem classify_isNone (thr g2min : ℚ) (row : FeatureRow)
    (h : (row.R1.isNone || row.Gap2.isNone) = true) :
    classify thr g2min row = Signal.EXCLUDED_NO_DATA := by
  unfold classify
  rw [if_pos h]

/-- C7: the window builder emits exactly one window row per input event
(missing bars never raise and never drop the event), and a missing OHLCV
bar at an anchor only sets that anchor's OHLCV fields to absent; the
absence then propagates — the affected feature is absent (never zero or a
default) and the classification is EXCLUDED_NO_DATA. -/
theorem buildWindow_missing_data_propagates (c : Calendar)
    (lookup : String → Int → Option OHLCV) (events : List EarningsEvent)
    (e : EarningsEvent) (thr g2min : ℚ) :
    (step4 c lookup events).1.length = events.length ∧
    (lookup e.symbol (c.get_t0_t1_t2 e.date e.session).t0 = none →
      (buildWindow c lookup e).t0_open = none ∧
      (buildWindow c lookup e).t0_high = none ∧
      (buildWindow c lookup e).t0_low = none ∧
      (buildWindow c lookup e).t0_close = none ∧
      (buildWindow c lookup e).t0_volume = none ∧
      (step5Row (buildWindow c lookup e)).R1 = none ∧
      (step6Row thr g2min (step5Row (buildWindow c lookup e))).signal =
        Signal.EXCLUDED_NO_DATA) ∧
    (lookup e.symbol (c.get_t0_t1_t2 e.date e.session).t1 = none →
      (buildWindow c lookup e).t1_close = none ∧
      (step5Row (buildWindow c lookup e)).R1 = none ∧
      (step5Row (buildWindow c lookup e)).Gap2 = none ∧
      (step6Row thr g2min (step5Row (buildWindow c lookup e))).signal =
        Signal.EXCLUDED_NO_DATA) ∧
    (lookup e.symbol (c.get_t0_t1_t2 e.date e.session).t2 = none →
      (buildWindow c lookup e).t2_open = none ∧
      (buildWindow c lookup e).t2_high = none ∧
      (buildWindow c lookup e).t2_low = none ∧
      (buildWindow c lookup e).t2_close = none ∧
      (buildWindow c lookup e).t2_volume = none ∧
      (step5Row (buildWindow c lookup e)).Gap2 = none ∧
      (step6Row thr g2min (step5Row (buildWindow c lookup e))).signal =
        Signal.EXCLUDED_NO_DATA) := by
  refine ⟨by simp [step4], ?_, ?_, ?_⟩
  · intro h
    have hR1 : (step5Row (buildWindow c lookup e)).R1 = none := by
      simp [buildWindow, step5Row, h, ratioMinusOne_none_right]
    refine ⟨?_, ?_, ?_, ?_, ?_, hR1, ?_⟩
    · simp [buildWindow, h]
    · simp [buildWindow, h]
    · simp [buildWindow, h]
    · simp [buildWindow, h]
    · simp [buildWindow, h]
    · have hs : (step6Row thr g2min (step5Row (buildWindow c lookup e))).signal =
          classify thr g2min (step5Row (buildWindow c lookup e)) := by
        simp [step6Row]
      rw [hs]
      exact classify_isNone _ _ _ (by simp [hR1])
  · intro h
    have hR1 : (step5Row (buildWindow c lookup e)).R1 = none := by
      simp [buildWindow, step5Row, h, ratioMinusOne_none_left]
    have hGap2 : (step5Row (buildWindow c lookup e)).Gap2 = none := by
      simp [buildWindow, step5Row, h, ratioMinusOne_none_right]
    refine ⟨?_, hR1, hGap2, ?_⟩
    · simp [buildWindow, h]
    · have hs : (step6Row thr g2min (step5Row (buildWindow c lookup e))).signal =
          classify thr g2min (step5Row (buildWindow c lookup e)) := by
        simp [step6Row]
      rw [hs]
      exact classify_isNone _ _ _ (by simp [hR1])
  · intro h
    have hGap2 : (step5Row (buildWindow c lookup e)).Gap2 = none := by
      simp [buildWindow, step5Row, h, ratioMinusOne_none_left]
    refine ⟨?_, ?_, ?_, ?_, ?_, hGap2, ?_⟩
    · simp [buildWindow, h]
    · simp [buildWindow, h]
    · simp [buildWindow, h]
    · simp [buildWindow, h]
    · simp [buildWindow, h]
    · have hs : (step6Row thr g2min (step5Row (buildWindow c lookup e))).signal =
          classify thr g2min (step5Row (buildWindow c lookup e)) := by
        simp [step6Row]
      rw [hs]
      exact classify_isNone _ _ _ (by simp [hGap2])

/-- A concrete earnings event used by the batch-level instantiations. -/
def sampleEvent : EarningsEvent :=
  { symbol := "AAPL", date := 0, session := EarningsSession.AMC }

/-- C7 witness: the missing-data behaviour instantiated at the weekday
calendar, an empty OHLCV table and a concrete event. -/
theorem buildWindow_missing_data_propagates_witness :
    (step4 weekdayCal (fun _ _ => none) [sampleEvent]).1.length =
      [sampleEvent].length ∧
    ((fun _ _ => (none : Option OHLCV)) sampleEvent.symbol
        (weekdayCal.get_t0_t1_t2 sampleEvent.date sampleEvent.session).t0 = none →
      (buildWindow weekdayCal (fun _ _ => none) sampleEvent).t0_open = none ∧
      (buildWindow weekdayCal (fun _ _ => none) sampleEvent).t0_high = none ∧
      (buildWindow weekdayCal (fun _ _ => none) sampleEvent).t0_low = none ∧
      (buildWindow weekdayCal (fun _ _ => none) sampleEvent).t0_close = none ∧
      (buildWindow weekdayCal (fun _ _ => none) sampleEvent).t0_volume = none ∧
      (step5Row (buildWindow weekdayCal (fun _ _ => none) sampleEvent)).R1 = none ∧
      (step6Row (1 / 100) (25 / 10000)
        (step5Row (buildWindow weekdayCal (fun _ _ => none) sampleEvent))).signal =
        Signal.EXCLUDED_NO_DATA) ∧
    ((fun _ _ => (none : Option OHLCV)) sampleEvent.symbol
        (weekdayCal.get_t0_t1_t2 sampleEvent.date sampleEvent.session).t1 = none →
      (buildWindow weekdayCal (fun _ _ => none) sampleEvent).t1_close = none ∧
      (step5Row (buildWindow weekdayCal (fun _ _ => none) sampleEvent)).R1 = none ∧
      (step5Row (buildWindow weekdayCal (fun _ _ => none) sampleEvent)).Gap2 = none ∧
      (step6Row (1 / 100) (25 / 10000)
        (step5Row (buildWindow weekdayCal (fun _ _ => none) sampleEvent))).signal =
        Signal.EXCLUDED_NO_DATA) ∧
    ((fun _ _ => (none : Option OHLCV)) sampleEvent.symbol
        (weekdayCal.get_t0_t1_t2 sampleEvent.date sampleEvent.session).t2 = none →
      (buildWindow weekdayCal (fun _ _ => none) sampleEvent).t2_open = none ∧
      (buildWindow weekdayCal (fun _ _ => none) sampleEvent).t2_high = none ∧
      (buildWindow weekdayCal (fun _ _ => none) sampleEvent).t2_low = none ∧
      (buildWindow weekdayCal (fun _ _ => none) sampleEvent).t2_close = none ∧
      (buildWindow weekdayCal (fun _ _ => none) sampleEvent).t2_volume = none ∧
      (step5Row (buildWindow weekdayCal (fun _ _ => none) sampleEvent)).Gap2 = none ∧
      (step6Row (1 / 100) (25 / 10000)
        (step5Row (buildWindow weekdayCal (fun _ _ => none) sampleEvent))).signal =
        Signal.EXCLUDED_NO_DATA) :=
  buildWindow_missing_data_propagates weekdayCal (fun _ _ => none)
    [sampleEvent] sampleEvent (1 / 100) (25 / 10000)

/-- C5: for every simulated trade with the relevant T2 bar fields present,
a LONG trade hits exactly when t2_high ≥ target and a SHORT trade exactly
when t2_low ≤ target; the exit price is the target when hit and t2_close
otherwise; and the gross return is (exit − entry)/entry for LONG and
(entry − exit)/entry for SHORT. -/
theorem simulateOne_hit_exit_gross (cost : ℚ) (sig : SignalRow)
    (e tg h2 l2 c2 : ℚ)
    (he : sig.entry_price = some e) (ht : sig.target_price = some tg)
    (hh : sig.t2_high = some h2) (hl : sig.t2_low = some l2)
    (hc2 : sig.t2_close = some c2) :
    (sig.signal = Signal.LONG →
      ∃ t, (simulateOne cost sig).1 = some t ∧
        (t.hit_target = true ↔ tg ≤ h2) ∧
        t.exit_price = (if tg ≤ h2 then tg else c2) ∧
        t.gross_return = (t.exit_price - e) / e) ∧
    (sig.signal = Signal.SHORT →
      ∃ t, (simulateOne cost sig).1 = some t ∧
        (t.hit_target = true ↔ l2 ≤ tg) ∧
        t.exit_price = (if l2 ≤ tg then tg else c2) ∧
        t.gross_return = (e - t.exit_price) / e) := by
  constructor
  · intro hsig
    simp only [simulateOne, he, ht, hh, hl, hc2]
    rw [if_pos hsig]
    refine ⟨_, rfl, ?_, ?_, rfl⟩
    · by_cases htg : tg ≤ h2 <;> simp [htg]
    · by_cases htg : tg ≤ h2 <;> simp [htg]
  · intro hsig
    have hne : ¬(sig.signal = Signal.LONG) := by rw [hsig]; decide
    simp only [simulateOne, he, ht, hh, hl, hc2]
    rw [if_neg hne]
    refine ⟨_, rfl, ?_, ?_, rfl⟩
    · by_cases htg : l2 ≤ tg <;> simp [htg]
    · by_cases htg : l2 ≤ tg <;> simp [htg]

/-- A LONG signal row with complete prices, matching the spec's worked
scenario (entry 103, target 105, T2 high 106, close 104). -/
def longSignalRow : SignalRow :=
  { symbol := "AAPL"
    earnings_date := 100
    session := "amc"
    effective_session := "amc"
    t0_date := 100
    t1_date := 101
    t2_date := 102
    t0_close := some 100
    t1_close := some 105
    t2_open := some 103
    R1 := some (1 / 20)
    Gap2 := some (-(2 / 105))
    signal := Signal.LONG
    exclusion_reason := none
    target_price := some 105
    entry_price := some 103
    t2_high := some 106
    t2_low := some 100
    t2_close := some 104 }

/-- C5 witness: the hit/exit/gross characterisation instantiated at the
concrete LONG row above. -/
theorem simulateOne_hit_exit_gross_witness :
    (longSignalRow.signal = Signal.LONG →
      ∃ t, (simulateOne 10 longSignalRow).1 = some t ∧
        (t.hit_target = true ↔ (105 : ℚ) ≤ 106) ∧
        t.exit_price = (if (105 : ℚ) ≤ 106 then (105 : ℚ) else 104) ∧
        t.gross_return = (t.exit_price - 103) / 103) ∧
    (longSignalRow.signal = Signal.SHORT →
      ∃ t, (simulateOne 10 longSignalRow).1 = some t ∧
        (t.hit_target = true ↔ (100 : ℚ) ≤ 105) ∧
        t.exit_price = (if (100 : ℚ) ≤ 105 then (105 : ℚ) else 104) ∧
        t.gross_return = (103 - t.exit_price) / 103) :=
  simulateOne_hit_exit_gross 10 longSignalRow 103 105 106 100 104
    rfl rfl rfl rfl rfl

/-- C6: every simulated trade is charged
cost_bps = 2 × (spread + slippage + commission), and its net return is
gross_return − cost_bps/10000 — the round-trip cost subtracted exactly
once per trade, hit or not. -/
theorem simulateOne_cost_net (cc : CostConfig) (sig : SignalRow) (t : Trade)
    (hres : (simulateOne (totalCostBps cc) sig).1 = some t) :
    t.cost_bps = 2 * (cc.spread_bps_each_side + cc.slippage_bps_each_side +
      cc.commission_bps_each_side) ∧
    t.net_return = t.gross_return - t.cost_bps / 10000 := by
  rcases he : sig.entry_price with _ | e
  · simp [simulateOne, he] at hres
  rcases ht : sig.target_price with _ | tg
  · simp [simulateOne, he, ht] at hres
  by_cases hsig : sig.signal = Signal.LONG
  · simp only [simulateOne, he, ht] at hres
    rw [if_pos hsig, Option.some_inj] at hres
    subst hres
    refine ⟨?_, rfl⟩
    show totalCostBps cc = _
    unfold totalCostBps
    ring
  · simp only [simulateOne, he, ht] at hres
    rw [if_neg hsig, Option.some_inj] at hres
    subst hres
    refine ⟨?_, rfl⟩
    show totalCostBps cc = _
    unfold totalCostBps
    ring

/-- The medium cost configuration shape used by the pipeline (three
per-side components; concrete reference values). -/
def mediumCost : CostConfig :=
  { spread_bps_each_side := 2
    slippage_bps_each_side := 2
    commission_bps_each_side := 1 }

/-- The trade the simulator produces for `longSignalRow` under
`mediumCost` (hit at 105, gross (105−103)/103, net gross − 10 bps). -/
def longSampleTrade : Trade :=
  { symbol := "AAPL"
    earnings_date := 100
    signal := Signal.LONG
    entry_price := 103
    target_price := 105
    exit_price := 105
    hit_target := true
    gross_return := 2 / 103
    cost_bps := 10
    net_return := 1897 / 103000 }

theorem simulateOne_longSampleTrade :
    (simulateOne (totalCostBps mediumCost) longSignalRow).1 =
      some longSampleTrade := by
  norm_num [simulateOne, longSignalRow, totalCostBps, mediumCost,
    longSampleTrade, Trade.mk.injEq]

/-- C6 witness: the cost and net-return identities instantiated at the
concrete LONG trade above. -/
theorem simulateOne_cost_net_witness :
    longSampleTrade.cost_bps = 2 * (mediumCost.spread_bps_each_side +
      mediumCost.slippage_bps_each_side + mediumCost.commission_bps_each_side) ∧
    longSampleTrade.net_return =
      longSampleTrade.gross_return - longSampleTrade.cost_bps / 10000 :=
  simulateOne_cost_net mediumCost longSignalRow longSampleTrade
    simulateOne_longSampleTrade

/-- A broken calendar oracle whose next-session query returns its argument
unchanged, producing degenerate (violating) T0/T1/T2 windows. -/
def badCal : Calendar where
  isTradingDay := fun _ => true
  nextTradingDay := fun d => d
  prevTradingDay := fun d => d

/-- C8 counterexample: with a defective calendar the batch contains a
window violating t1_date < t2_date, yet the window-building step does not
abort — the violating window is still present in the output table and the
only surfaced signal is the batch boolean being false (which the source
merely prints in its progress output). -/
theorem date_order_violation_not_aborted :
    (step4 badCal (fun _ _ => none) [sampleEvent]).2 = false ∧
    (step4 badCal (fun _ _ => none) [sampleEvent]).1.length = 1 ∧
    ((step4 badCal (fun _ _ => none) [sampleEvent]).1.map fun w =>
      decide (w.t1_date < w.t2_date)) = [false] := by
  refine ⟨rfl, rfl, rfl⟩

/-- C8 (amended): the window-building step computes the batch-level
predicate t0_date ≤ t1_date ∧ t1_date < t2_date over all windows and
reports its boolean value, but continues regardless: the output always
contains one window per event, violating windows included. -/
theorem step4_reports_date_order_flag (c : Calendar)
    (lookup : String → Int → Option OHLCV) (events : List EarningsEvent) :
    (step4 c lookup events).1.length = events.length ∧
    ((step4 c lookup events).2 = true ↔
      ∀ w ∈ (step4 c lookup events).1,
        w.t0_date ≤ w.t1_date ∧ w.t1_date < w.t2_date) := by
  constructor
  · simp [step4]
  · simp [step4, List.all_eq_true, Bool.and_eq_true, decide_eq_true_eq]

/-- C8 amended-claim witness: the flag semantics instantiated at the
defective calendar and the one-event batch (flag false, window kept). -/
theorem step4_reports_date_order_flag_witness :
    (step4 badCal (fun _ _ => none) [sampleEvent]).1.length =
      [sampleEvent].length ∧
    ((step4 badCal (fun _ _ => none) [sampleEvent]).2 = true ↔
      ∀ w ∈ (step4 badCal (fun _ _ => none) [sampleEvent]).1,
        w.t0_date ≤ w.t1_date ∧ w.t1_date < w.t2_date) :=
  step4_reports_date_order_flag badCal (fun _ _ => none) [sampleEvent]

/-- A tradeable LONG signal row whose recorded target price (106) differs
from its t1_close (105) by far more than the 1e-4 tolerance — an input
that trips the simulator's first self-consistency assertion. -/
def mismatchedSignalRow : SignalRow :=
  { symbol := "JPM"
    earnings_date := 10
    session := "amc"
    effective_session := "amc"
    t0_date := 9
    t1_date := 10
    t2_date := 11
    t0_close := some 100
    t1_close := some 105
    t2_open := some 103
    R1 := some (1 / 20)
    Gap2 := some (-(2 / 105))
    signal := Signal.LONG
    exclusion_reason := none
    target_price := some 106
    entry_price := some 103
    t2_high := some 107
    t2_low := some 100
    t2_close := some 104 }

/-- The trade the simulator emits for the mismatched row (hit at 106,
gross (106−103)/103, cost 10 bps). -/
def mismatchTrade : Trade :=
  { symbol := "JPM"
    earnings_date := 10
    signal := Signal.LONG
    entry_price := 103
    target_price := 106
    exit_price := 106
    hit_target := true
    gross_return := 3 / 103
    cost_bps := 10
    net_return := 3 / 103 - 10 / 10000 }

/-- The validation error the simulator records for the mismatched row. -/
def mismatchError : ValidationError :=
  { symbol := "JPM"
    earnings_date := 10
    kind := "target_price != t1_close"
    expected := 105
    actual := 106 }

theorem simulateOne_mismatchedRow :
    simulateOne 10 mismatchedSignalRow = (some mismatchTrade, [mismatchError]) := by
  norm_num [simulateOne, mismatchedSignalRow, mismatchTrade, mismatchError,
    Trade.mk.injEq, ValidationError.mk.injEq, Prod.ext_iff,
    decide_eq_true_eq]

/-- C9 counterexample: on a trade violating target_price == t1_close the
simulator records the validation error but does NOT fail the run — the
trade row is still emitted (one trade and one recorded error for the
one-signal batch), so the violating numbers reach the output. -/
theorem trade_assertion_violation_still_emits_trade :
    (step7 10 [mismatchedSignalRow]).1.length = 1 ∧
    (step7 10 [mismatchedSignalRow]).2.length = 1 := by
  have h := simulateOne_mismatchedRow
  have hsig : mismatchedSignalRow.signal = Signal.LONG := rfl
  constructor <;>
    simp [step7, h, hsig, List.filter_cons]

/-- C9 (amended): on every simulated trade whose target differs from
t1_close by more than the 1e-4 tolerance, the simulator reports a
validation error carrying the full identifying context (symbol, earnings
date, expected and actual value) — but it continues rather than failing:
the trade row is still produced. -/
theorem simulateOne_reports_and_continues (cost : ℚ) (sig : SignalRow)
    (e tg tc : ℚ)
    (he : sig.entry_price = some e) (ht : sig.target_price = some tg)
    (htc : sig.t1_close = some tc) (hviol : 1 / 10000 < |tg - tc|) :
    (simulateOne cost sig).1.isSome = true ∧
    ∃ err ∈ (simulateOne cost sig).2,
      err.symbol = sig.symbol ∧ err.earnings_date = sig.earnings_date ∧
      err.expected = tc ∧ err.actual = tg := by
  by_cases hsig : sig.signal = Signal.LONG
  · simp only [simulateOne, he, ht, htc]
    rw [if_pos hsig, if_pos hviol]
    exact ⟨rfl, _, List.mem_append_left _ (List.mem_singleton_self _),
      rfl, rfl, rfl, rfl⟩
  · simp only [simulateOne, he, ht, htc]
    rw [if_neg hsig, if_pos hviol]
    exact ⟨rfl, _, List.mem_append_left _ (List.mem_singleton_self _),
      rfl, rfl, rfl, rfl⟩

/-- C9 amended-claim witness: the report-and-continue behaviour
instantiated at the concrete mismatched LONG row. -/
theorem simulateOne_reports_and_continues_witness :
    (simulateOne 10 mismatchedSignalRow).1.isSome = true ∧
    ∃ err ∈ (simulateOne 10 mismatchedSignalRow).2,
      err.symbol = mismatchedSignalRow.symbol ∧
      err.earnings_date = mismatchedSignalRow.earnings_date ∧
      err.expected = 105 ∧ err.actual = 106 :=
  simulateOne_reports_and_continues 10 mismatchedSignalRow 103 106 105
    rfl rfl rfl (by norm_num)
